import Mathlib

/-!
Shallow embedding of the Coderr marketplace backend (a Django REST Framework
application) and verification of the frozen claims about it.

The embedding translates the Python source under `src/` into executable Lean
definitions: the persisted tables become lists of records threaded through the
handlers, serializer validation becomes explicit branching, and each view
handler becomes a function from a database state, an (optional) authenticated
caller, and a typed request payload to an HTTP status plus response body and
the successor database state.

Notes on the translation:
* Decimal prices (`DecimalField(max_digits=10, decimal_places=2)`) are
  modelled as integers (fixed-point values); only ordering and equality of
  prices matter to the claims.
* Query parameters and payload fields arrive already parsed and type-checked:
  the views and DRF fields validate raw strings and reject malformed input
  with 400 before any handler logic runs, and no claim depends on that
  parsing layer.  Choice fields (`offer_type`, order `status`) are therefore
  enum-typed in payloads.
* `src/common/permissions.py` is imported by the view modules but is not in
  the source tree; the repository ships the same permission classes in
  `src/Backend_Coderr/markt_coderr/api/permissions.py`, which is the file
  embedded here (`_infer_profile_type`, `_get_profile_type`, `IsCustomerUser`,
  `IsOrderBusinessOwner`, `IsReviewOwner`, `IsOfferOwner`).
* `order_by("min_price")` sorts ascending with SQL NULLs (offers without
  details) first, as SQLite does; the claims touched by ordering only compare
  offers whose minimum exists, so the NULL placement is immaterial.
-/

namespace Coderr

/-- Python `hay.startswith(needle)` on `List Char`: `startsWithL pat l` is
true when `pat` is an initial segment of `l`. -/
def startsWithL : List Char → List Char → Bool
  | [], _ => true
  | _ :: _, [] => false
  | a :: pa, b :: l => a == b && startsWithL pa l

/-- Python substring containment `pat in l` (contiguous occurrence). -/
def hasSubL (pat : List Char) : List Char → Bool
  | [] => startsWithL pat []
  | c :: rest => startsWithL pat (c :: rest) || hasSubL pat rest

/-- Python `str.lower()` over the characters of a string (the identifiers the
code lowers are ASCII). -/
def lowerS (s : String) : List Char := s.toList.map Char.toLower

/-- `Profile.TYPE_CHOICES` (src/Backend_Coderr/markt_coderr/models.py). -/
inductive ProfileType where
  | customer
  | business
deriving DecidableEq, Repr

/-- `OfferDetail.OFFER_TYPE_CHOICES` (src/offers/models.py). -/
inductive OfferType where
  | basic
  | standard
  | premium
deriving DecidableEq, Repr

/-- `Order.STATUS_CHOICES` (src/Backend_Coderr/markt_coderr/models.py). -/
inductive OrderStatus where
  | in_progress
  | completed
  | cancelled
deriving DecidableEq, Repr

/-- The identity entity owned by Django's auth subsystem. -/
structure User where
  id : Nat
  username : String
  email : String
  isStaff : Bool := false
deriving DecidableEq, Repr

/-- `Profile` row (only the fields the claims touch). -/
structure Profile where
  userId : Nat
  type : ProfileType
deriving DecidableEq, Repr

/-- `Offer` row. -/
structure Offer where
  id : Nat
  userId : Nat
  title : String
  description : String := ""
  updated_at : Nat := 0
deriving DecidableEq, Repr

/-- `OfferDetail` row. -/
structure OfferDetail where
  id : Nat
  offerId : Nat
  title : String
  revisions : Int
  delivery_time_in_days : Nat
  price : Int
  features : List String
  offer_type : OfferType
deriving DecidableEq, Repr

/-- `Order` row: a snapshot of an `OfferDetail` plus the two user references
and the mutable status. -/
structure Order where
  id : Nat
  customer_user : Nat
  business_user : Nat
  title : String
  revisions : Int
  delivery_time_in_days : Nat
  price : Int
  features : List String
  offer_type : OfferType
  status : OrderStatus := .in_progress
deriving DecidableEq, Repr

/-- `Review` row (`unique_together = ("business_user", "reviewer")` is a
database constraint; the create handler re-checks it explicitly). -/
structure Review where
  id : Nat
  business_user : Nat
  reviewer : Nat
  rating : Int
  description : String := ""
deriving DecidableEq, Repr

/-- The persisted state: one list per table (in insertion order, as the
autoincrement primary keys would order them) plus the counters the database
uses for fresh primary keys. -/
structure DB where
  users : List User := []
  profiles : List Profile := []
  offers : List Offer := []
  offerDetails : List OfferDetail := []
  orders : List Order := []
  reviews : List Review := []
  nextOfferId : Nat := 1
  nextDetailId : Nat := 1
  nextOrderId : Nat := 1
  nextReviewId : Nat := 1
deriving DecidableEq, Repr

def findUser (db : DB) (uid : Nat) : Option User :=
  db.users.find? (fun u => u.id == uid)

def findProfile (db : DB) (uid : Nat) : Option Profile :=
  db.profiles.find? (fun p => p.userId == uid)

def findOffer (db : DB) (oid : Nat) : Option Offer :=
  db.offers.find? (fun o => o.id == oid)

def findDetail (db : DB) (did : Nat) : Option OfferDetail :=
  db.offerDetails.find? (fun d => d.id == did)

def findOrder (db : DB) (oid : Nat) : Option Order :=
  db.orders.find? (fun o => o.id == oid)

def findReview (db : DB) (rid : Nat) : Option Review :=
  db.reviews.find? (fun r => r.id == rid)

/-- `o.details.all()`: the detail rows of an offer, in primary-key order. -/
def detailsOf (db : DB) (oid : Nat) : List OfferDetail :=
  db.offerDetails.filter (fun d => d.offerId == oid)

/-- A generic HTTP handler result: status code plus optional response body. -/
structure HResult (β : Type) where
  status : Nat
  body : Option β := none
deriving DecidableEq, Repr

/-- A list-endpoint result: status code plus the result objects. -/
structure ListResult (β : Type) where
  status : Nat
  results : List β := []
deriving DecidableEq, Repr

/-! ### Profile resolution (src/common/utils.py) -/

/-- `_guess_profile_type` (src/common/utils.py, lines 43-51): infer a profile
type from the lowered username/email; `None` when no hint matches. -/
def _guess_profile_type (user : User) : Option ProfileType :=
  let username := lowerS user.username
  let email := lowerS user.email
  if hasSubL "customer".toList username || hasSubL "customer".toList email then
    some ProfileType.customer
  else if hasSubL "business".toList username || hasSubL "business".toList email
      || (startsWithL "biz".toList username || hasSubL "biz".toList username) then
    some ProfileType.business
  else
    none

/-- `_get_or_create_profile` (src/common/utils.py, lines 54-61): return the
existing profile or create one typed `inferred or default_type or customer`. -/
def _get_or_create_profile (db : DB) (user : User) (default_type : Option ProfileType) :
    Profile × DB :=
  match findProfile db user.id with
  | some p => (p, db)
  | none =>
      let profile_type :=
        match _guess_profile_type user with
        | some t => t
        | none => default_type.getD ProfileType.customer
      let p : Profile := { userId := user.id, type := profile_type }
      (p, { db with profiles := db.profiles ++ [p] })

/-- The type `_get_or_create_profile` assigns when no profile exists yet:
the inferred type, else the caller-supplied default, else customer. -/
def resolveNewProfileType (user : User) (default_type : Option ProfileType) : ProfileType :=
  match _guess_profile_type user with
  | some t => t
  | none => default_type.getD ProfileType.customer

/-- Stated from the claim's words (C2), for comparison with the code: substring
"customer" (case-insensitive) in username or email gives customer; otherwise
"business" in username or email or "biz" in the username gives business;
otherwise the caller-supplied default, falling back to customer. -/
def claimProfileType (username email : String) (default_type : Option ProfileType) :
    ProfileType :=
  let u := lowerS username
  let e := lowerS email
  if hasSubL "customer".toList u || hasSubL "customer".toList e then
    ProfileType.customer
  else if hasSubL "business".toList u || hasSubL "business".toList e
      || hasSubL "biz".toList u then
    ProfileType.business
  else
    default_type.getD ProfileType.customer

/-- `_get_business_profile_or_response` (src/common/utils.py, lines 64-69):
resolve (or lazily create, with business as the default type) the caller's
profile; `none` in the first component signals the 403 response. -/
def _get_business_profile_or_response (db : DB) (user : User) : Option Profile × DB :=
  let pr := _get_or_create_profile db user (some ProfileType.business)
  if pr.1.type ≠ ProfileType.business then (none, pr.2) else (some pr.1, pr.2)

/-! ### Permission predicates
(src/Backend_Coderr/markt_coderr/api/permissions.py; `src/common/permissions.py`
imported by the view modules is absent from the tree, this is the variant the
repository ships.) -/

/-- `_infer_profile_type`: like `_guess_profile_type` but falls back to
customer instead of `None`, and never writes a row. -/
def _infer_profile_type (user : User) : ProfileType :=
  let username := lowerS user.username
  let email := lowerS user.email
  if hasSubL "customer".toList username || hasSubL "customer".toList email then
    ProfileType.customer
  else if hasSubL "business".toList username || hasSubL "business".toList email
      || (startsWithL "biz".toList username || hasSubL "biz".toList username) then
    ProfileType.business
  else
    ProfileType.customer

/-- `_get_profile_type`: the stored profile type, or the inferred one when no
profile row exists. -/
def _get_profile_type (db : DB) (user : User) : ProfileType :=
  match findProfile db user.id with
  | some p => p.type
  | none => _infer_profile_type user

/-- `IsCustomerUser.has_permission`: authenticated and customer-typed. -/
def isCustomerUser (db : DB) (caller : Option User) : Bool :=
  match caller with
  | none => false
  | some u => _get_profile_type db u == ProfileType.customer

/-! ### Offer creation (src/offers/serializers.py, src/offers/api/views.py) -/

/-- One element of the `details` list of an offer-creation payload, already
field-validated by `OfferDetailSerializer` (so `offer_type` is one of the
three choices). -/
structure OfferDetailPayload where
  title : String
  revisions : Int
  delivery_time_in_days : Nat
  price : Int
  features : List String
  offer_type : OfferType
deriving DecidableEq, Repr

/-- The `OfferCreateSerializer` input. -/
structure OfferCreatePayload where
  title : String
  description : String := ""
  details : List OfferDetailPayload
deriving DecidableEq, Repr

/-- `OfferDetailSerializer` output (full detail form). -/
structure OfferDetailOut where
  id : Nat
  title : String
  revisions : Int
  delivery_time_in_days : Nat
  price : Int
  features : List String
  offer_type : OfferType
deriving DecidableEq, Repr

/-- `OfferCreateSerializer` output: offer fields plus full details. -/
structure OfferCreateOut where
  id : Nat
  title : String
  description : String
  details : List OfferDetailOut
deriving DecidableEq, Repr

def serializeDetail (d : OfferDetail) : OfferDetailOut :=
  { id := d.id, title := d.title, revisions := d.revisions,
    delivery_time_in_days := d.delivery_time_in_days, price := d.price,
    features := d.features, offer_type := d.offer_type }

/-- `OfferCreateSerializer(offer).data`: re-reads the offer's details from the
database. -/
def serializeOfferCreate (db : DB) (o : Offer) : OfferCreateOut :=
  { id := o.id, title := o.title, description := o.description,
    details := (detailsOf db o.id).map serializeDetail }

/-- The detail rows `OfferCreateSerializer.create` inserts, in payload order,
with consecutive fresh primary keys. -/
def mkDetails (oid : Nat) (startId : Nat) : List OfferDetailPayload → List OfferDetail
  | [] => []
  | p :: rest =>
      { id := startId, offerId := oid, title := p.title, revisions := p.revisions,
        delivery_time_in_days := p.delivery_time_in_days, price := p.price,
        features := p.features, offer_type := p.offer_type }
        :: mkDetails oid (startId + 1) rest

/-- `OfferCreateSerializer.create` (transaction-wrapped): insert the offer and
its detail rows, then serialize the offer back. -/
def offerCreate (db : DB) (user : User) (payload : OfferCreatePayload) :
    HResult OfferCreateOut × DB :=
  let offer : Offer :=
    { id := db.nextOfferId, userId := user.id, title := payload.title,
      description := payload.description }
  let newDetails := mkDetails offer.id db.nextDetailId payload.details
  let db2 :=
    { db with offers := db.offers ++ [offer],
              offerDetails := db.offerDetails ++ newDetails,
              nextOfferId := db.nextOfferId + 1,
              nextDetailId := db.nextDetailId + payload.details.length }
  (⟨201, some (serializeOfferCreate db2 offer)⟩, db2)

/-- `OffersListCreateView.post` (src/offers/api/views.py, lines 158-168):
401 without authentication, 403 unless the (lazily created) profile is
business-typed, 400 unless `validate_details` sees exactly 3 details, else
create and answer 201. -/
def offersPost (db : DB) (caller : Option User) (payload : OfferCreatePayload) :
    HResult OfferCreateOut × DB :=
  match caller with
  | none => (⟨401, none⟩, db)
  | some user =>
      match _get_business_profile_or_response db user with
      | (none, db1) => (⟨403, none⟩, db1)
      | (some _, db1) =>
          if payload.details.length ≠ 3 then (⟨400, none⟩, db1)
          else offerCreate db1 user payload

/-! ### Offer listing (src/offers/api/views.py) -/

/-- `_min_or_none` (src/offers/serializers.py, line 9-11). -/
def _min_or_none {α : Type} [Min α] : List α → Option α
  | [] => none
  | x :: xs => some (xs.foldl min x)

/-- `_offer_min_price`: minimum detail price of an offer, none if no details. -/
def _offer_min_price (db : DB) (o : Offer) : Option Int :=
  _min_or_none ((detailsOf db o.id).map (fun d => d.price))

/-- `_offer_min_delivery`: minimum detail delivery time of an offer. -/
def _offer_min_delivery (db : DB) (o : Offer) : Option Nat :=
  _min_or_none ((detailsOf db o.id).map (fun d => d.delivery_time_in_days))

/-- An offer together with the `Min(...)` annotations of
`_annotate_offer_queryset` (src/offers/api/views.py, lines 35-40). -/
structure AnnOffer where
  offer : Offer
  min_price : Option Int
  min_delivery_time : Option Nat
deriving DecidableEq, Repr

def _annotate_offer_queryset (db : DB) (l : List Offer) : List AnnOffer :=
  l.map (fun o =>
    { offer := o, min_price := _offer_min_price db o,
      min_delivery_time := _offer_min_delivery db o })

/-- Ascending SQL comparison on a nullable numeric column: NULL sorts first
(SQLite). -/
def optIntLe : Option Int → Option Int → Bool
  | none, _ => true
  | some _, none => false
  | some x, some y => decide (x ≤ y)

def annMinPriceLe (a b : AnnOffer) : Prop := optIntLe a.min_price b.min_price = true

def annMinPriceGe (a b : AnnOffer) : Prop := optIntLe b.min_price a.min_price = true

def annUpdatedLe (a b : AnnOffer) : Prop := a.offer.updated_at ≤ b.offer.updated_at

def annUpdatedGe (a b : AnnOffer) : Prop := b.offer.updated_at ≤ a.offer.updated_at

def offerIdLe (a b : Offer) : Prop := a.id ≤ b.id

instance : DecidableRel annMinPriceLe := fun a b =>
  inferInstanceAs (Decidable (optIntLe a.min_price b.min_price = true))

instance : DecidableRel annMinPriceGe := fun a b =>
  inferInstanceAs (Decidable (optIntLe b.min_price a.min_price = true))

instance : DecidableRel annUpdatedLe := fun a b =>
  inferInstanceAs (Decidable (a.offer.updated_at ≤ b.offer.updated_at))

instance : DecidableRel annUpdatedGe := fun a b =>
  inferInstanceAs (Decidable (b.offer.updated_at ≤ a.offer.updated_at))

instance : DecidableRel offerIdLe := fun a b =>
  inferInstanceAs (Decidable (a.id ≤ b.id))

instance : IsTotal AnnOffer annMinPriceLe where
  total a b := by
    unfold annMinPriceLe
    generalize a.min_price = x
    generalize b.min_price = y
    cases x <;> cases y <;> simp [optIntLe] <;> omega

instance : IsTrans AnnOffer annMinPriceLe where
  trans a b c h1 h2 := by
    unfold annMinPriceLe at h1 h2 ⊢
    generalize hx : a.min_price = x at h1 ⊢
    generalize hy : b.min_price = y at h1 h2
    generalize hz : c.min_price = z at h2 ⊢
    cases x <;> cases y <;> cases z <;> simp [optIntLe] at * <;> omega

/-- The parsed query parameters of `GET /offers/`. -/
structure OffersListParams where
  creator_id : Option Nat := none
  min_price : Option Int := none
  max_delivery_time : Option Nat := none
  search : Option String := none
  ordering : Option String := none
  page : Nat := 1
  page_size : Nat := 6
deriving DecidableEq, Repr

def offersOrderingAllowed (s : String) : Bool :=
  s == "updated_at" || s == "-updated_at" || s == "min_price" || s == "-min_price"

/-- `_offers_base_queryset`: all offers ordered by primary key. -/
def _offers_base_queryset (db : DB) : List Offer :=
  List.insertionSort offerIdLe db.offers

def _filter_offers_by_creator (l : List AnnOffer) (params : OffersListParams) :
    List AnnOffer :=
  match params.creator_id with
  | none => l
  | some cid => l.filter (fun a => a.offer.userId == cid)

def _filter_offers_by_min_price (l : List AnnOffer) (params : OffersListParams) :
    List AnnOffer :=
  match params.min_price with
  | none => l
  | some thr =>
      l.filter (fun a =>
        match a.min_price with
        | some mp => decide (thr ≤ mp)
        | none => false)

def _filter_offers_by_max_delivery (l : List AnnOffer) (params : OffersListParams) :
    List AnnOffer :=
  match params.max_delivery_time with
  | none => l
  | some thr =>
      l.filter (fun a =>
        match a.min_delivery_time with
        | some d => decide (d ≤ thr)
        | none => false)

def _filter_offers_by_search (l : List AnnOffer) (params : OffersListParams) :
    List AnnOffer :=
  match params.search with
  | none => l
  | some s =>
      l.filter (fun a =>
        hasSubL (lowerS s) (lowerS a.offer.title)
          || hasSubL (lowerS s) (lowerS a.offer.description))

def _apply_offers_filters (l : List AnnOffer) (params : OffersListParams) :
    List AnnOffer :=
  _filter_offers_by_search
    (_filter_offers_by_max_delivery
      (_filter_offers_by_min_price
        (_filter_offers_by_creator l params) params) params) params

/-- `_apply_ordering` for the offers list (the four allowed values). -/
def _apply_ordering (l : List AnnOffer) (ordering : Option String) : List AnnOffer :=
  match ordering with
  | none => l
  | some s =>
      if s = "min_price" then List.insertionSort annMinPriceLe l
      else if s = "-min_price" then List.insertionSort annMinPriceGe l
      else if s = "updated_at" then List.insertionSort annUpdatedLe l
      else if s = "-updated_at" then List.insertionSort annUpdatedGe l
      else l

/-- `StandardResultsSetPagination.paginate_queryset`: Django's paginator
answers the requested 1-based page (a slice of `page_size` items), and DRF
raises `NotFound` — answered 404 — when the page number is outside
`1 .. num_pages`, where `num_pages = max 1 ⌈count / page_size⌉` (an empty
first page is allowed).  `page_size` is positive: DRF's `get_page_size`
parses the query parameter as a strictly positive integer and falls back to
the default 6 otherwise. -/
def paginate {α : Type} (l : List α) (page page_size : Nat) : Option (List α) :=
  if page < 1 ∨ max 1 ((l.length + page_size - 1) / page_size) < page then none
  else some ((l.drop ((page - 1) * page_size)).take page_size)

/-- `OfferListSerializer` output (the fields the claims read; the serializer
recomputes `min_price`/`min_delivery_time` from the detail rows). -/
structure OfferListOut where
  id : Nat
  user : Nat
  title : String
  description : String
  min_price : Option Int
  min_delivery_time : Option Nat
deriving DecidableEq, Repr

def serializeOfferList (db : DB) (a : AnnOffer) : OfferListOut :=
  { id := a.offer.id, user := a.offer.userId, title := a.offer.title,
    description := a.offer.description,
    min_price := _offer_min_price db a.offer,
    min_delivery_time := _offer_min_delivery db a.offer }

/-- `OffersListCreateView.get` (src/offers/api/views.py, lines 141-156):
reject unknown ordering values with 400, else annotate, filter, order,
paginate (404 for an out-of-range page), serialize. -/
def offersGet (db : DB) (params : OffersListParams) : ListResult OfferListOut :=
  if (match params.ordering with
      | some s => !(offersOrderingAllowed s)
      | none => false) then
    ⟨400, []⟩
  else
    let qs := _annotate_offer_queryset db (_offers_base_queryset db)
    let qs := _apply_offers_filters qs params
    let qs := _apply_ordering qs params.ordering
    match paginate qs params.page params.page_size with
    | none => ⟨404, []⟩
    | some items => ⟨200, items.map (serializeOfferList db)⟩

/-! ### Offer update (src/offers/serializers.py `OfferUpdateSerializer`,
src/offers/api/views.py `OfferDetailUpdateDeleteView.patch`) -/

/-- One element of the sparse `details` list of an offer update; with
`partial=True` every field is optional, and `_require_offer_type` rejects a
patch without `offer_type`. -/
structure DetailPatch where
  offer_type : Option OfferType := none
  title : Option String := none
  revisions : Option Int := none
  delivery_time_in_days : Option Nat := none
  price : Option Int := none
  features : Option (List String) := none
deriving DecidableEq, Repr

/-- The `OfferUpdateSerializer` input (sparse). -/
structure OfferUpdatePayload where
  title : Option String := none
  description : Option String := none
  details : Option (List DetailPatch) := none
deriving DecidableEq, Repr

/-- `_apply_detail_update`: field-by-field overwrite of a detail row. -/
def applyDetailPatch (d : OfferDetail) (p : DetailPatch) : OfferDetail :=
  { d with
    offer_type := p.offer_type.getD d.offer_type,
    title := p.title.getD d.title,
    revisions := p.revisions.getD d.revisions,
    delivery_time_in_days := p.delivery_time_in_days.getD d.delivery_time_in_days,
    price := p.price.getD d.price,
    features := p.features.getD d.features }

/-- `_update_offer_details`: apply the patches in order to the detail table;
a patch without `offer_type`, or naming a type the offer does not have, fails
the whole update (the surrounding transaction rolls everything back). -/
def _update_offer_details (working : List OfferDetail) (offerId : Nat) :
    List DetailPatch → Except Unit (List OfferDetail)
  | [] => Except.ok working
  | p :: rest =>
      match p.offer_type with
      | none => Except.error ()
      | some t =>
          match working.find? (fun d => d.offerId == offerId && d.offer_type == t) with
          | none => Except.error ()
          | some d =>
              let d2 := applyDetailPatch d p
              _update_offer_details
                (working.map (fun x => if x.id == d.id then d2 else x)) offerId rest

/-- `OfferDetailUpdateDeleteView.patch`: 401 unauthenticated, 404 unknown
offer, 403 non-owner, 400 when a detail patch fails (atomic rollback), else
200 with the re-serialized offer. -/
def offersPatch (db : DB) (caller : Option User) (pk : Nat)
    (payload : OfferUpdatePayload) : HResult OfferCreateOut × DB :=
  match caller with
  | none => (⟨401, none⟩, db)
  | some user =>
      match findOffer db pk with
      | none => (⟨404, none⟩, db)
      | some offer =>
          if offer.userId ≠ user.id then (⟨403, none⟩, db)
          else
            let offer2 :=
              { offer with title := payload.title.getD offer.title,
                           description := payload.description.getD offer.description }
            match payload.details with
            | none =>
                let db2 :=
                  { db with offers := db.offers.map (fun o => if o.id == offer.id then offer2 else o) }
                (⟨200, some (serializeOfferCreate db2 offer2)⟩, db2)
            | some patches =>
                match _update_offer_details db.offerDetails offer.id patches with
                | Except.error _ => (⟨400, none⟩, db)
                | Except.ok newDetails =>
                    let db2 :=
                      { db with offers := db.offers.map (fun o => if o.id == offer.id then offer2 else o),
                                offerDetails := newDetails }
                    (⟨200, some (serializeOfferCreate db2 offer2)⟩, db2)

/-! ### Orders (src/orders/api/views.py, src/orders/api/serializers.py) -/

/-- The order-creation input: `offer_detail_id`, absent when the key is
missing from the request body. -/
structure OrderCreatePayload where
  offer_detail_id : Option Nat := none
deriving DecidableEq, Repr

/-- `_create_order_from_detail` (src/orders/api/views.py, lines 37-48):
snapshot the detail's fields; `business_user` is the owning offer's user. -/
def _create_order_from_detail (oid : Nat) (customerId businessId : Nat)
    (d : OfferDetail) : Order :=
  { id := oid, customer_user := customerId, business_user := businessId,
    title := d.title, revisions := d.revisions,
    delivery_time_in_days := d.delivery_time_in_days, price := d.price,
    features := d.features, offer_type := d.offer_type,
    status := OrderStatus.in_progress }

/-- `OrdersListCreateView.post` (src/orders/api/views.py, lines 59-66):
401 unauthenticated, 403 unless `IsCustomerUser`, 400 when the key is missing,
404 when no such detail row exists, else create and answer 201.  (The 500
branch marks a foreign-key violation the database forbids.) -/
def ordersPost (db : DB) (caller : Option User) (payload : OrderCreatePayload) :
    HResult Order × DB :=
  match caller with
  | none => (⟨401, none⟩, db)
  | some user =>
      if _get_profile_type db user ≠ ProfileType.customer then (⟨403, none⟩, db)
      else
        match payload.offer_detail_id with
        | none => (⟨400, none⟩, db)
        | some did =>
            match findDetail db did with
            | none => (⟨404, none⟩, db)
            | some detail =>
                match findOffer db detail.offerId with
                | none => (⟨500, none⟩, db)
                | some offer =>
                    let order := _create_order_from_detail db.nextOrderId user.id offer.userId detail
                    (⟨201, some order⟩,
                      { db with orders := db.orders ++ [order],
                                nextOrderId := db.nextOrderId + 1 })

/-- The `PATCH /orders/{id}/` request body.  `OrderStatusUpdateSerializer`
declares only `status`; the other keys model a payload that also supplies
snapshot fields, which DRF ignores because they are not declared. -/
structure OrderPatchPayload where
  status : Option OrderStatus := none
  title : Option String := none
  price : Option Int := none
  customer_user : Option Nat := none
  business_user : Option Nat := none
deriving DecidableEq, Repr

/-- `OrdersUpdateDeleteView.patch` (src/orders/api/views.py, lines 73-81):
401 unauthenticated, 404 unknown order, 403 unless the caller is the order's
`business_user`, else overwrite `status` (only) and answer 200. -/
def ordersPatch (db : DB) (caller : Option User) (pk : Nat)
    (payload : OrderPatchPayload) : HResult Order × DB :=
  match caller with
  | none => (⟨401, none⟩, db)
  | some user =>
      match findOrder db pk with
      | none => (⟨404, none⟩, db)
      | some order =>
          if order.business_user ≠ user.id then (⟨403, none⟩, db)
          else
            let o2 := { order with status := payload.status.getD order.status }
            (⟨200, some o2⟩,
              { db with orders := db.orders.map (fun x => if x.id == order.id then o2 else x) })

/-- `OrderCountView.get` (src/orders/api/views.py, lines 91-103): 401
unauthenticated, 404 unknown user, 404 unless the (lazily created) profile is
business-typed, else 200 with the in-progress order count. -/
def orderCountGet (db : DB) (caller : Option User) (business_user_id : Nat) :
    HResult Nat × DB :=
  match caller with
  | none => (⟨401, none⟩, db)
  | some _ =>
      match findUser db business_user_id with
      | none => (⟨404, none⟩, db)
      | some target =>
          let pr := _get_or_create_profile db target none
          if pr.1.type ≠ ProfileType.business then (⟨404, none⟩, pr.2)
          else
            (⟨200, some ((pr.2.orders.filter (fun o =>
                o.business_user == business_user_id
                  && o.status == OrderStatus.in_progress)).length)⟩, pr.2)

/-- `CompletedOrderCountView.get` (src/orders/api/views.py, lines 106-118). -/
def completedOrderCountGet (db : DB) (caller : Option User) (business_user_id : Nat) :
    HResult Nat × DB :=
  match caller with
  | none => (⟨401, none⟩, db)
  | some _ =>
      match findUser db business_user_id with
      | none => (⟨404, none⟩, db)
      | some target =>
          let pr := _get_or_create_profile db target none
          if pr.1.type ≠ ProfileType.business then (⟨404, none⟩, pr.2)
          else
            (⟨200, some ((pr.2.orders.filter (fun o =>
                o.business_user == business_user_id
                  && o.status == OrderStatus.completed)).length)⟩, pr.2)

/-! ### Reviews (src/reviews/api/views.py, src/reviews/api/serializers.py) -/

/-- `ReviewCreateSerializer` input: `business_user` (a user primary key),
`rating`, `description`. -/
structure ReviewCreatePayload where
  business_user : Nat
  rating : Int
  description : String := ""
deriving DecidableEq, Repr

/-- `ReviewsListCreateView.post` (src/reviews/api/views.py, lines 49-59):
401 unless `IsCustomerUser`, 400 on validation failure (unknown
`business_user` or rating outside 1..5), 403 when a review for the
(business_user, reviewer) pair already exists, else create and answer 201. -/
def reviewsPost (db : DB) (caller : Option User) (p : ReviewCreatePayload) :
    HResult Review × DB :=
  match caller with
  | none => (⟨401, none⟩, db)
  | some user =>
      if _get_profile_type db user ≠ ProfileType.customer then (⟨401, none⟩, db)
      else if findUser db p.business_user = none ∨ p.rating < 1 ∨ 5 < p.rating then
        (⟨400, none⟩, db)
      else if db.reviews.any (fun r =>
          r.business_user == p.business_user && r.reviewer == user.id) then
        (⟨403, none⟩, db)
      else
        let review : Review :=
          { id := db.nextReviewId, business_user := p.business_user,
            reviewer := user.id, rating := p.rating, description := p.description }
        (⟨201, some review⟩,
          { db with reviews := db.reviews ++ [review],
                    nextReviewId := db.nextReviewId + 1 })

/-- The `PATCH /reviews/{id}/` request body.  `ReviewUpdateSerializer`
declares only `rating` and `description`; the `business_user`/`reviewer` keys
model a payload that also supplies the pair, which DRF ignores because those
fields are not declared. -/
structure ReviewPatchPayload where
  rating : Option Int := none
  description : Option String := none
  business_user : Option Nat := none
  reviewer : Option Nat := none
deriving DecidableEq, Repr

/-- `validate_rating` on update: absent rating is fine, a present one must be
in 1..5. -/
def ratingOk : Option Int → Bool
  | none => true
  | some r => decide (1 ≤ r ∧ r ≤ 5)

/-- `ReviewsUpdateDeleteView.patch` (src/reviews/api/views.py, lines 66-74):
401 unauthenticated, 404 unknown review, 403 unless the caller is the
reviewer, 400 on an out-of-range rating, else overwrite rating/description
and answer 200. -/
def reviewsPatch (db : DB) (caller : Option User) (pk : Nat)
    (p : ReviewPatchPayload) : HResult Review × DB :=
  match caller with
  | none => (⟨401, none⟩, db)
  | some user =>
      match findReview db pk with
      | none => (⟨404, none⟩, db)
      | some review =>
          if review.reviewer ≠ user.id then (⟨403, none⟩, db)
          else if ratingOk p.rating = false then (⟨400, none⟩, db)
          else
            let r2 :=
              { review with rating := p.rating.getD review.rating,
                            description := p.description.getD review.description }
            (⟨200, some r2⟩,
              { db with reviews := db.reviews.map (fun x => if x.id == review.id then r2 else x) })

/-! ### Projections used by the frame claims -/

/-- Everything of an `Order` except its mutable `status`. -/
structure OrderSnapshot where
  id : Nat
  customer_user : Nat
  business_user : Nat
  title : String
  revisions : Int
  delivery_time_in_days : Nat
  price : Int
  features : List String
  offer_type : OfferType
deriving DecidableEq, Repr

def Order.snapshot (o : Order) : OrderSnapshot :=
  { id := o.id, customer_user := o.customer_user, business_user := o.business_user,
    title := o.title, revisions := o.revisions,
    delivery_time_in_days := o.delivery_time_in_days, price := o.price,
    features := o.features, offer_type := o.offer_type }

/-- The immutable identity of a `Review`: primary key plus the
(business_user, reviewer) pair. -/
def reviewKey (r : Review) : Nat × Nat × Nat := (r.id, r.business_user, r.reviewer)

/-! ### Concrete states and payloads used by witnesses and counterexamples
(usernames and emails are chosen free of the substrings the type-inference
heuristic reacts to, unless a scenario needs otherwise) -/

def exAlice : User := { id := 1, username := "al", email := "al@x.io" }

def exBob : User := { id := 2, username := "bo", email := "bo@x.io" }

def exCarl : User := { id := 3, username := "cl", email := "cl@x.io" }

def pdBasic : OfferDetailPayload :=
  { title := "b", revisions := 1, delivery_time_in_days := 2, price := 100,
    features := ["f1"], offer_type := OfferType.basic }

def pdStandard : OfferDetailPayload :=
  { title := "s", revisions := 2, delivery_time_in_days := 4, price := 200,
    features := ["f2"], offer_type := OfferType.standard }

def pdPremium : OfferDetailPayload :=
  { title := "p", revisions := 3, delivery_time_in_days := 6, price := 300,
    features := ["f3"], offer_type := OfferType.premium }

/-- A well-formed creation payload: three details, one per offer type. -/
def plTriple : OfferCreatePayload := { title := "t", details := [pdBasic, pdStandard, pdPremium] }

/-- Three details that all carry `offer_type = basic`. -/
def plThreeBasic : OfferCreatePayload := { title := "t", details := [pdBasic, pdBasic, pdBasic] }

/-- Only two details. -/
def plShort : OfferCreatePayload := { title := "t", details := [pdBasic, pdStandard] }

/-- alice exists and has a customer-typed profile. -/
def dbCustomerAlice : DB :=
  { users := [exAlice], profiles := [{ userId := 1, type := ProfileType.customer }] }

/-- bob exists and has a business-typed profile. -/
def dbBusinessBob : DB :=
  { users := [exBob], profiles := [{ userId := 2, type := ProfileType.business }] }

def dbEmpty : DB := {}

/-- alice (customer) has already reviewed bob. -/
def dbReviewDup : DB :=
  { users := [exAlice, exBob],
    profiles := [{ userId := 1, type := ProfileType.customer }],
    reviews := [{ id := 1, business_user := 2, reviewer := 1, rating := 4 }],
    nextReviewId := 2 }

def exDana : User := { id := 4, username := "da", email := "da@x.io" }

/-- carl, whose profile is customer-typed, owns an offer with one detail;
dana is another customer. -/
def dbOwnerCustomer : DB :=
  { users := [exCarl, exDana],
    profiles := [{ userId := 3, type := ProfileType.customer },
                 { userId := 4, type := ProfileType.customer }],
    offers := [{ id := 1, userId := 3, title := "of" }],
    offerDetails := [{ id := 1, offerId := 1, title := "d", revisions := 1,
                       delivery_time_in_days := 1, price := 10, features := [],
                       offer_type := OfferType.basic }],
    nextOfferId := 2, nextDetailId := 2 }

/-- bob (business) owns two offers, listed out of price order. -/
def dbTwoOffers : DB :=
  { users := [exBob],
    profiles := [{ userId := 2, type := ProfileType.business }],
    offers := [{ id := 1, userId := 2, title := "o1" },
               { id := 2, userId := 2, title := "o2" }],
    offerDetails :=
      [{ id := 1, offerId := 1, title := "a", revisions := 1,
         delivery_time_in_days := 1, price := 300, features := [],
         offer_type := OfferType.basic },
       { id := 2, offerId := 2, title := "b", revisions := 1,
         delivery_time_in_days := 1, price := 100, features := [],
         offer_type := OfferType.basic }],
    nextOfferId := 3, nextDetailId := 3 }

/-- bob (business) with two in-progress orders and one completed order. -/
def dbOrders : DB :=
  { users := [exAlice, exBob],
    profiles := [{ userId := 1, type := ProfileType.customer },
                 { userId := 2, type := ProfileType.business }],
    orders :=
      [{ id := 1, customer_user := 1, business_user := 2, title := "o1",
         revisions := 1, delivery_time_in_days := 1, price := 10, features := [],
         offer_type := OfferType.basic, status := OrderStatus.in_progress },
       { id := 2, customer_user := 1, business_user := 2, title := "o2",
         revisions := 1, delivery_time_in_days := 1, price := 20, features := [],
         offer_type := OfferType.standard, status := OrderStatus.completed },
       { id := 3, customer_user := 1, business_user := 2, title := "o3",
         revisions := 1, delivery_time_in_days := 1, price := 30, features := [],
         offer_type := OfferType.premium, status := OrderStatus.in_progress }],
    nextOrderId := 4 }

/-! ## Theorems -/

theorem startsWithL_hasSubL (pat l : List Char) (h : startsWithL pat l = true) :
    hasSubL pat l = true := by
  cases l with
  | nil => simpa [hasSubL] using h
  | cons c rest => simp [hasSubL, h]

/-- C2: the profile-type inference is a pure function of the (username, email)
strings and behaves exactly as the claim describes: "customer" anywhere wins,
then "business" in either string or "biz" in the username gives business, else
the caller's default with customer as the final fallback.  (The code's extra
`username.startswith("biz")` disjunct is subsumed by `"biz" in username`.) -/
theorem guess_profile_type_matches_claim (user : User) (default_type : Option ProfileType) :
    resolveNewProfileType user default_type =
      claimProfileType user.username user.email default_type := by
  unfold resolveNewProfileType _guess_profile_type claimProfileType
  have horz : (startsWithL "biz".toList (lowerS user.username)
      || hasSubL "biz".toList (lowerS user.username))
      = hasSubL "biz".toList (lowerS user.username) := by
    cases hp : startsWithL "biz".toList (lowerS user.username) with
    | false => simp
    | true => rw [startsWithL_hasSubL _ _ hp]; simp
  simp only [horz]
  cases hc : (hasSubL "customer".toList (lowerS user.username)
      || hasSubL "customer".toList (lowerS user.email)) with
  | true => simp [hc]
  | false =>
      cases hb : (hasSubL "business".toList (lowerS user.username)
          || hasSubL "business".toList (lowerS user.email)
          || hasSubL "biz".toList (lowerS user.username)) with
      | true => simp [hc, hb]
      | false => simp [hc, hb]

theorem _get_or_create_profile_frame (db : DB) (u : User) (d : Option ProfileType) :
    ((_get_or_create_profile db u d).2.offers = db.offers)
      ∧ ((_get_or_create_profile db u d).2.offerDetails = db.offerDetails)
      ∧ ((_get_or_create_profile db u d).2.orders = db.orders)
      ∧ ((_get_or_create_profile db u d).2.reviews = db.reviews)
      ∧ ((_get_or_create_profile db u d).2.nextOfferId = db.nextOfferId)
      ∧ ((_get_or_create_profile db u d).2.nextDetailId = db.nextDetailId) := by
  unfold _get_or_create_profile
  cases findProfile db u.id <;> simp

theorem _get_business_profile_forbidden (db : DB) (user : User)
    (h : (_get_or_create_profile db user (some ProfileType.business)).1.type
        ≠ ProfileType.business) :
    _get_business_profile_or_response db user
      = (none, (_get_or_create_profile db user (some ProfileType.business)).2) := by
  unfold _get_business_profile_or_response
  rw [if_pos h]

theorem _get_business_profile_granted (db : DB) (user : User)
    (h : (_get_or_create_profile db user (some ProfileType.business)).1.type
        = ProfileType.business) :
    _get_business_profile_or_response db user
      = (some (_get_or_create_profile db user (some ProfileType.business)).1,
         (_get_or_create_profile db user (some ProfileType.business)).2) := by
  unfold _get_business_profile_or_response
  rw [if_neg (by simp [h])]

/-- C6: an unauthenticated `POST /offers/` yields 401, and an authenticated one
whose (lazily resolved, business-defaulted) profile is not business-typed
yields 403; in both cases no `Offer` (or `OfferDetail`) row is created. -/
theorem offers_post_permission_gate (db : DB) (payload : OfferCreatePayload) :
    ((offersPost db none payload).1.status = 401
      ∧ (offersPost db none payload).2.offers = db.offers
      ∧ (offersPost db none payload).2.offerDetails = db.offerDetails)
    ∧ (∀ user : User,
        (_get_or_create_profile db user (some ProfileType.business)).1.type
            ≠ ProfileType.business →
        (offersPost db (some user) payload).1.status = 403
          ∧ (offersPost db (some user) payload).2.offers = db.offers
          ∧ (offersPost db (some user) payload).2.offerDetails = db.offerDetails) := by
  constructor
  · exact ⟨rfl, rfl, rfl⟩
  · intro user h
    have hf := _get_or_create_profile_frame db user (some ProfileType.business)
    simp only [offersPost, _get_business_profile_forbidden db user h]
    exact ⟨trivial, hf.1, hf.2.1⟩

theorem offers_post_permission_gate_witness :
    ((_get_or_create_profile dbCustomerAlice exAlice (some ProfileType.business)).1.type
        ≠ ProfileType.business)
    ∧ ((offersPost dbCustomerAlice (some exAlice) plTriple).1.status = 403
        ∧ (offersPost dbCustomerAlice (some exAlice) plTriple).2.offers = dbCustomerAlice.offers
        ∧ (offersPost dbCustomerAlice (some exAlice) plTriple).2.offerDetails
            = dbCustomerAlice.offerDetails) :=
  ⟨by decide, (offers_post_permission_gate dbCustomerAlice plTriple).2 exAlice (by decide)⟩

/-- C3 (amended): a creation payload with fewer than 3 details never persists
an `Offer` or `OfferDetail` row and is answered with a client error — 400
whenever the caller passed the authentication and business-profile gates
(which answer 401/403 first otherwise). -/
theorem offers_post_short_details (db : DB) (caller : Option User)
    (payload : OfferCreatePayload) (hlen : payload.details.length < 3) :
    ((offersPost db caller payload).1.status = 400
      ∨ (offersPost db caller payload).1.status = 401
      ∨ (offersPost db caller payload).1.status = 403)
    ∧ (offersPost db caller payload).2.offers = db.offers
    ∧ (offersPost db caller payload).2.offerDetails = db.offerDetails
    ∧ (∀ user : User, caller = some user →
        (_get_or_create_profile db user (some ProfileType.business)).1.type
            = ProfileType.business →
        (offersPost db caller payload).1.status = 400) := by
  cases caller with
  | none =>
      refine ⟨Or.inr (Or.inl rfl), rfl, rfl, ?_⟩
      intro user h
      exact absurd h (by simp)
  | some user =>
      have hf := _get_or_create_profile_frame db user (some ProfileType.business)
      by_cases hb : (_get_or_create_profile db user (some ProfileType.business)).1.type
          = ProfileType.business
      · have hne : payload.details.length ≠ 3 := by omega
        simp only [offersPost, _get_business_profile_granted db user hb, if_pos hne]
        refine ⟨Or.inl trivial, hf.1, hf.2.1, ?_⟩
        intro u hu hbt
        trivial
      · simp only [offersPost, _get_business_profile_forbidden db user hb]
        refine ⟨Or.inr (Or.inr trivial), hf.1, hf.2.1, ?_⟩
        intro u hu hbt
        cases hu
        exact absurd hbt hb

theorem offers_post_short_details_witness :
    plShort.details.length < 3
    ∧ (((offersPost dbBusinessBob (some exBob) plShort).1.status = 400
          ∨ (offersPost dbBusinessBob (some exBob) plShort).1.status = 401
          ∨ (offersPost dbBusinessBob (some exBob) plShort).1.status = 403)
        ∧ (offersPost dbBusinessBob (some exBob) plShort).2.offers = dbBusinessBob.offers
        ∧ (offersPost dbBusinessBob (some exBob) plShort).2.offerDetails
            = dbBusinessBob.offerDetails
        ∧ (∀ user : User, some exBob = some user →
            (_get_or_create_profile dbBusinessBob user (some ProfileType.business)).1.type
                = ProfileType.business →
            (offersPost dbBusinessBob (some exBob) plShort).1.status = 400)) :=
  ⟨by decide, offers_post_short_details dbBusinessBob (some exBob) plShort (by decide)⟩

/-- C3 as frozen is too strong: an unauthenticated creation request with fewer
than 3 details is answered 401, not 400 (the role gates run before detail
validation). -/
theorem offers_post_short_details_counterexample :
    plShort.details.length < 3
    ∧ (offersPost dbEmpty none plShort).1.status = 401
    ∧ (offersPost dbEmpty none plShort).1.status ≠ 400
    ∧ (offersPost dbEmpty none plShort).2.offers = dbEmpty.offers := by
  refine ⟨by decide, rfl, by decide, rfl⟩

theorem filter_offerId_nil (nid : Nat) (l : List OfferDetail)
    (h : ∀ d ∈ l, d.offerId ≠ nid) :
    l.filter (fun d => d.offerId == nid) = [] := by
  induction l with
  | nil => rfl
  | cons a t ih =>
      have ha : (a.offerId == nid) = false := by
        simpa using h a (by simp)
      have ht := ih (fun d hd => h d (by simp [hd]))
      simp [List.filter_cons, ha, ht]

theorem mkDetails_self_filter (nid sid : Nat) (ps : List OfferDetailPayload) :
    (mkDetails nid sid ps).filter (fun d => d.offerId == nid) = mkDetails nid sid ps := by
  induction ps generalizing sid with
  | nil => rfl
  | cons p rest ih => simp [mkDetails, List.filter_cons, ih]

theorem mkDetails_length (nid sid : Nat) (ps : List OfferDetailPayload) :
    (mkDetails nid sid ps).length = ps.length := by
  induction ps generalizing sid with
  | nil => rfl
  | cons p rest ih => simp [mkDetails, ih]

theorem mkDetails_types (nid sid : Nat) (ps : List OfferDetailPayload) :
    (mkDetails nid sid ps).map (fun d => d.offer_type)
      = ps.map (fun p => p.offer_type) := by
  induction ps generalizing sid with
  | nil => rfl
  | cons p rest ih => simp [mkDetails, ih]

theorem offerCreate_details (db : DB) (user : User) (payload : OfferCreatePayload)
    (hD : ∀ d ∈ db.offerDetails, d.offerId < db.nextOfferId) :
    (offerCreate db user payload).1.status = 201
    ∧ ∃ body, (offerCreate db user payload).1.body = some body
        ∧ body.details.length = payload.details.length
        ∧ body.details.map (fun d => d.offer_type)
            = payload.details.map (fun p => p.offer_type) := by
  have hnil : db.offerDetails.filter (fun d => d.offerId == db.nextOfferId) = [] :=
    filter_offerId_nil _ _ (fun d hd => Nat.ne_of_lt (hD d hd))
  refine ⟨rfl, _, rfl, ?_, ?_⟩
  · simp [offerCreate, serializeOfferCreate, detailsOf, List.filter_append, hnil,
      mkDetails_self_filter, mkDetails_length]
  · simp only [offerCreate, serializeOfferCreate, detailsOf, List.filter_append, hnil,
      mkDetails_self_filter, List.nil_append, List.map_map]
    have hcomp : (fun d => (serializeDetail d).offer_type)
        = (fun d : OfferDetail => d.offer_type) := rfl
    calc (mkDetails db.nextOfferId db.nextDetailId payload.details).map
            (OfferDetailOut.offer_type ∘ serializeDetail)
        = (mkDetails db.nextOfferId db.nextDetailId payload.details).map
            (fun d => d.offer_type) := by rfl
      _ = payload.details.map (fun p => p.offer_type) := mkDetails_types _ _ _

/-- C1 (amended): every successful offer creation answers 201 with exactly 3
detail objects whose `offer_type` values mirror the submitted payloads in
submission order; hence they are pairwise distinct and cover
{basic, standard, premium} exactly when the submitted three are a
rearrangement of those types — `validate_details` itself checks only the
count.  The freshness hypothesis is the primary-key discipline of the
database. -/
theorem offers_create_response_details (db : DB) (caller : Option User)
    (payload : OfferCreatePayload)
    (hD : ∀ d ∈ db.offerDetails, d.offerId < db.nextOfferId)
    (hs : (offersPost db caller payload).1.status = 201) :
    ∃ body, (offersPost db caller payload).1.body = some body
      ∧ body.details.length = 3
      ∧ body.details.map (fun d => d.offer_type)
          = payload.details.map (fun p => p.offer_type)
      ∧ ((payload.details.map (fun p => p.offer_type)).Perm
            [OfferType.basic, OfferType.standard, OfferType.premium] →
          (body.details.map (fun d => d.offer_type)).Perm
            [OfferType.basic, OfferType.standard, OfferType.premium]) := by
  cases caller with
  | none => simp [offersPost] at hs
  | some user =>
      by_cases hb : (_get_or_create_profile db user (some ProfileType.business)).1.type
          = ProfileType.business
      · have hf := _get_or_create_profile_frame db user (some ProfileType.business)
        by_cases hlen : payload.details.length ≠ 3
        · simp [offersPost, _get_business_profile_granted db user hb, if_pos hlen] at hs
        · have hlen3 : payload.details.length = 3 := by omega
          simp only [offersPost, _get_business_profile_granted db user hb, if_neg hlen] at hs ⊢
          have hD1 : ∀ d ∈ (_get_or_create_profile db user (some ProfileType.business)).2.offerDetails,
              d.offerId < (_get_or_create_profile db user (some ProfileType.business)).2.nextOfferId := by
            rw [hf.2.1, hf.2.2.2.2.1]
            exact hD
          obtain ⟨-, body, hbody, hlenb, htypes⟩ :=
            offerCreate_details (_get_or_create_profile db user (some ProfileType.business)).2
              user payload hD1
          refine ⟨body, hbody, ?_, htypes, ?_⟩
          · rw [hlenb, hlen3]
          · intro hp
            rwa [htypes]
      · simp [offersPost, _get_business_profile_forbidden db user hb] at hs

theorem offers_create_response_details_witness :
    (∀ d ∈ dbBusinessBob.offerDetails, d.offerId < dbBusinessBob.nextOfferId)
    ∧ (offersPost dbBusinessBob (some exBob) plTriple).1.status = 201
    ∧ ∃ body, (offersPost dbBusinessBob (some exBob) plTriple).1.body = some body
        ∧ body.details.length = 3
        ∧ body.details.map (fun d => d.offer_type)
            = plTriple.details.map (fun p => p.offer_type)
        ∧ ((plTriple.details.map (fun p => p.offer_type)).Perm
              [OfferType.basic, OfferType.standard, OfferType.premium] →
            (body.details.map (fun d => d.offer_type)).Perm
              [OfferType.basic, OfferType.standard, OfferType.premium]) :=
  ⟨by decide, by decide,
    offers_create_response_details dbBusinessBob (some exBob) plTriple
      (by decide) (by decide)⟩

/-- C1 as frozen is too strong: a business user submitting three details that
all carry `offer_type = basic` is answered 201, and the response's three
detail objects all carry `basic` — not pairwise distinct and not covering the
three types.  (`validate_details` checks only `len(value) == 3`.) -/
theorem offers_create_response_details_counterexample :
    (offersPost dbBusinessBob (some exBob) plThreeBasic).1.status = 201
    ∧ ((offersPost dbBusinessBob (some exBob) plThreeBasic).1.body.map
        (fun b => b.details.map (fun d => d.offer_type)))
        = some [OfferType.basic, OfferType.basic, OfferType.basic]
    ∧ ¬ List.Pairwise (fun a b => a ≠ b)
        [OfferType.basic, OfferType.basic, OfferType.basic] := by
  exact ⟨by decide, by decide, by decide⟩

/-- C4 (amended): a customer-typed reviewer whose payload passes field
validation (existing `business_user`, rating in 1..5) and who already has a
review for that `business_user` is answered 403, the review table is left
untouched, and exactly one row for the pair remains. -/
theorem reviews_post_duplicate (db : DB) (user : User) (p : ReviewCreatePayload)
    (hcust : _get_profile_type db user = ProfileType.customer)
    (hvalid : (findUser db p.business_user).isSome ∧ 1 ≤ p.rating ∧ p.rating ≤ 5)
    (hdup : (db.reviews.filter (fun r =>
        r.business_user == p.business_user && r.reviewer == user.id)).length = 1) :
    (reviewsPost db (some user) p).1.status = 403
    ∧ (reviewsPost db (some user) p).2.reviews = db.reviews
    ∧ ((reviewsPost db (some user) p).2.reviews.filter (fun r =>
        r.business_user == p.business_user && r.reviewer == user.id)).length = 1 := by
  obtain ⟨hbu, hlo, hhi⟩ := hvalid
  have hv : ¬(findUser db p.business_user = none ∨ p.rating < 1 ∨ 5 < p.rating) := by
    intro h
    rcases h with h | h | h
    · rw [h] at hbu
      simp at hbu
    · omega
    · omega
  have hany : db.reviews.any (fun r =>
      r.business_user == p.business_user && r.reviewer == user.id) = true := by
    cases hfl : db.reviews.filter (fun r =>
        r.business_user == p.business_user && r.reviewer == user.id) with
    | nil => rw [hfl] at hdup; simp at hdup
    | cons a t =>
        have ha : a ∈ db.reviews.filter (fun r =>
            r.business_user == p.business_user && r.reviewer == user.id) := by
          rw [hfl]; exact List.mem_cons_self a t
        obtain ⟨hmem, hpred⟩ := List.mem_filter.mp ha
        exact List.any_eq_true.mpr ⟨a, hmem, hpred⟩
  have hnc : ¬(_get_profile_type db user ≠ ProfileType.customer) := by simp [hcust]
  simp only [reviewsPost, if_neg hnc, if_neg hv, if_pos hany]
  exact ⟨by trivial, by trivial, by simpa using hdup⟩

theorem reviews_post_duplicate_witness :
    (_get_profile_type dbReviewDup exAlice = ProfileType.customer
      ∧ ((findUser dbReviewDup 2).isSome ∧ 1 ≤ (3 : Int) ∧ (3 : Int) ≤ 5)
      ∧ (dbReviewDup.reviews.filter (fun r =>
          r.business_user == 2 && r.reviewer == exAlice.id)).length = 1)
    ∧ ((reviewsPost dbReviewDup (some exAlice)
          { business_user := 2, rating := 3 }).1.status = 403
        ∧ (reviewsPost dbReviewDup (some exAlice)
            { business_user := 2, rating := 3 }).2.reviews = dbReviewDup.reviews
        ∧ ((reviewsPost dbReviewDup (some exAlice)
              { business_user := 2, rating := 3 }).2.reviews.filter (fun r =>
            r.business_user == 2 && r.reviewer == exAlice.id)).length = 1) :=
  ⟨⟨by decide, by decide, by decide⟩,
    reviews_post_duplicate dbReviewDup exAlice { business_user := 2, rating := 3 }
      (by decide) (by decide) (by decide)⟩

/-- C4 as frozen is too strong: a customer-typed reviewer who already has a
review for the named `business_user` but submits an out-of-range rating is
answered 400, not 403 — serializer validation runs before the duplicate
check.  (The existing row still stays untouched.) -/
theorem reviews_post_duplicate_counterexample :
    (dbReviewDup.reviews.filter (fun r =>
        r.business_user == 2 && r.reviewer == exAlice.id)).length = 1
    ∧ _get_profile_type dbReviewDup exAlice = ProfileType.customer
    ∧ (reviewsPost dbReviewDup (some exAlice)
        { business_user := 2, rating := 6 }).1.status = 400
    ∧ (reviewsPost dbReviewDup (some exAlice)
        { business_user := 2, rating := 6 }).1.status ≠ 403 := by
  exact ⟨by decide, by decide, by decide, by decide⟩

/-- C5: for an authenticated count request naming an existing user, both count
endpoints answer 404 when the target's (lazily created) profile is not
business-typed, and otherwise answer 200 with exactly the number of that
business user's orders in the respective status. -/
theorem order_counts_correct (db : DB) (c : User) (uid : Nat) (target : User)
    (hfind : findUser db uid = some target) :
    ((_get_or_create_profile db target none).1.type ≠ ProfileType.business →
      (orderCountGet db (some c) uid).1.status = 404
      ∧ (completedOrderCountGet db (some c) uid).1.status = 404)
    ∧ ((_get_or_create_profile db target none).1.type = ProfileType.business →
      (orderCountGet db (some c) uid).1
          = ⟨200, some ((db.orders.filter (fun o =>
              o.business_user == uid && o.status == OrderStatus.in_progress)).length)⟩
      ∧ (completedOrderCountGet db (some c) uid).1
          = ⟨200, some ((db.orders.filter (fun o =>
              o.business_user == uid && o.status == OrderStatus.completed)).length)⟩) := by
  have hf := _get_or_create_profile_frame db target none
  constructor
  · intro hnb
    simp only [orderCountGet, completedOrderCountGet, hfind, if_pos hnb]
    exact ⟨by trivial, by trivial⟩
  · intro hb
    have hnn : ¬((_get_or_create_profile db target none).1.type ≠ ProfileType.business) := by
      simp [hb]
    simp only [orderCountGet, completedOrderCountGet, hfind, if_neg hnn, hf.2.2.1]
    exact ⟨by trivial, by trivial⟩

theorem order_counts_correct_witness :
    findUser dbOrders 2 = some exBob
    ∧ (((_get_or_create_profile dbOrders exBob none).1.type ≠ ProfileType.business →
          (orderCountGet dbOrders (some exAlice) 2).1.status = 404
          ∧ (completedOrderCountGet dbOrders (some exAlice) 2).1.status = 404)
      ∧ ((_get_or_create_profile dbOrders exBob none).1.type = ProfileType.business →
          (orderCountGet dbOrders (some exAlice) 2).1
              = ⟨200, some ((dbOrders.orders.filter (fun o =>
                  o.business_user == 2 && o.status == OrderStatus.in_progress)).length)⟩
          ∧ (completedOrderCountGet dbOrders (some exAlice) 2).1
              = ⟨200, some ((dbOrders.orders.filter (fun o =>
                  o.business_user == 2 && o.status == OrderStatus.completed)).length)⟩)) :=
  ⟨by decide, order_counts_correct dbOrders exAlice 2 exBob (by decide)⟩

theorem map_replace_snapshot (orders : List Order) (order o2 : Order)
    (hids : (orders.map (fun o => o.id)).Nodup)
    (hmem : order ∈ orders)
    (hsnap : o2.snapshot = order.snapshot) :
    ((orders.map (fun x => if x.id == order.id then o2 else x)).map Order.snapshot)
      = orders.map Order.snapshot := by
  rw [List.map_map]
  apply List.map_congr_left
  intro x hx
  by_cases hxe : x.id = order.id
  · have hxeq : x = order := List.inj_on_of_nodup_map hids hx hmem hxe
    simp [Function.comp, hxe, hxeq, hsnap]
  · simp [Function.comp, hxe]

/-- C8: the six snapshotted fields and the two user references of every order
are invariant under `PATCH /orders/{id}/` (whatever the payload supplies, only
`status` can change), and an offer update — including its detail patches —
never touches the orders table, so later `OfferDetail` changes are not
propagated.  The `Nodup` hypothesis is primary-key uniqueness. -/
theorem order_snapshot_immutable (db : DB) (caller : Option User) (pk : Nat)
    (op : OrderPatchPayload) (fq : OfferUpdatePayload)
    (hids : (db.orders.map (fun o => o.id)).Nodup) :
    ((ordersPatch db caller pk op).2.orders.map Order.snapshot
        = db.orders.map Order.snapshot)
    ∧ ((offersPatch db caller pk fq).2.orders = db.orders) := by
  constructor
  · cases caller with
    | none => rfl
    | some user =>
        cases hfo : findOrder db pk with
        | none => simp only [ordersPatch, hfo]
        | some order =>
            by_cases hown : order.business_user ≠ user.id
            · simp only [ordersPatch, hfo, if_pos hown]
            · simp only [ordersPatch, hfo, if_neg hown]
              exact map_replace_snapshot db.orders order _ hids
                (List.mem_of_find?_eq_some hfo) rfl
  · cases caller with
    | none => rfl
    | some user =>
        cases hfo : findOffer db pk with
        | none => simp only [offersPatch, hfo]
        | some offer =>
            by_cases hown : offer.userId ≠ user.id
            · simp only [offersPatch, hfo, if_pos hown]
            · cases hd : fq.details with
              | none => simp only [offersPatch, hfo, if_neg hown, hd]
              | some patches =>
                  cases hu : _update_offer_details db.offerDetails offer.id patches with
                  | error e => simp only [offersPatch, hfo, if_neg hown, hd, hu]
                  | ok nd => simp only [offersPatch, hfo, if_neg hown, hd, hu]

theorem order_snapshot_immutable_witness :
    (dbOrders.orders.map (fun o => o.id)).Nodup
    ∧ (((ordersPatch dbOrders (some exBob) 1
          { status := some OrderStatus.completed, title := some "hack",
            price := some 1, customer_user := some 9,
            business_user := some 9 }).2.orders.map Order.snapshot
        = dbOrders.orders.map Order.snapshot)
      ∧ ((offersPatch dbOrders (some exBob) 1
          { title := some "new",
            details := some [{ offer_type := some OfferType.basic,
                               price := some 999 }] }).2.orders = dbOrders.orders)) :=
  ⟨by decide,
    order_snapshot_immutable dbOrders (some exBob) 1
      { status := some OrderStatus.completed, title := some "hack",
        price := some 1, customer_user := some 9, business_user := some 9 }
      { title := some "new",
        details := some [{ offer_type := some OfferType.basic, price := some 999 }] }
      (by decide)⟩

theorem map_replace_reviewKey (reviews : List Review) (review r2 : Review)
    (hids : (reviews.map (fun r => r.id)).Nodup)
    (hmem : review ∈ reviews)
    (hkey : reviewKey r2 = reviewKey review) :
    ((reviews.map (fun x => if x.id == review.id then r2 else x)).map reviewKey)
      = reviews.map reviewKey := by
  rw [List.map_map]
  apply List.map_congr_left
  intro x hx
  by_cases hxe : x.id = review.id
  · have hxeq : x = review := List.inj_on_of_nodup_map hids hx hmem hxe
    simp [Function.comp, hxe, hxeq, hkey]
  · simp [Function.comp, hxe]

/-- C9: `PATCH /reviews/{id}/` preserves every review's primary key and its
(business_user, reviewer) pair for every caller and every payload — including
payloads that supply `business_user`/`reviewer` values, which the update
serializer does not declare and therefore ignores; only `rating` and
`description` can change.  The `Nodup` hypothesis is primary-key
uniqueness. -/
theorem review_pair_immutable (db : DB) (caller : Option User) (pk : Nat)
    (p : ReviewPatchPayload)
    (hids : (db.reviews.map (fun r => r.id)).Nodup) :
    (reviewsPatch db caller pk p).2.reviews.map reviewKey
      = db.reviews.map reviewKey := by
  cases caller with
  | none => rfl
  | some user =>
      cases hfr : findReview db pk with
      | none => simp only [reviewsPatch, hfr]
      | some review =>
          by_cases hown : review.reviewer ≠ user.id
          · simp only [reviewsPatch, hfr, if_pos hown]
          · by_cases hrv : ratingOk p.rating = false
            · simp only [reviewsPatch, hfr, if_neg hown, if_pos hrv]
            · simp only [reviewsPatch, hfr, if_neg hown, if_neg hrv]
              exact map_replace_reviewKey db.reviews review _ hids
                (List.mem_of_find?_eq_some hfr) rfl

theorem review_pair_immutable_witness :
    (dbReviewDup.reviews.map (fun r => r.id)).Nodup
    ∧ (reviewsPatch dbReviewDup (some exAlice) 1
        { rating := some 5, description := some "better",
          business_user := some 9, reviewer := some 9 }).2.reviews.map reviewKey
        = dbReviewDup.reviews.map reviewKey :=
  ⟨by decide,
    review_pair_immutable dbReviewDup (some exAlice) 1
      { rating := some 5, description := some "better",
        business_user := some 9, reviewer := some 9 }
      (by decide)⟩

/-- C10: order creation copies `business_user` from the owner of the detail's
offer and `customer_user` from the caller with no check on the owner's
profile type or distinctness from the caller; concretely, a customer buying a
detail of an offer owned by a customer-typed user gets a 201 order whose
`business_user` is not business-typed, and a customer buying their own
offer's detail gets a 201 order with `customer_user = business_user`. -/
theorem orders_post_no_owner_check :
    (∀ (db : DB) (user : User) (p : OrderCreatePayload) (did : Nat)
        (detail : OfferDetail) (offer : Offer),
      _get_profile_type db user = ProfileType.customer →
      p.offer_detail_id = some did →
      findDetail db did = some detail →
      findOffer db detail.offerId = some offer →
      (ordersPost db (some user) p).1.status = 201
      ∧ ∃ o, (ordersPost db (some user) p).1.body = some o
          ∧ o.business_user = offer.userId ∧ o.customer_user = user.id)
    ∧ ((ordersPost dbOwnerCustomer (some exDana) { offer_detail_id := some 1 }).1.status = 201
        ∧ ((ordersPost dbOwnerCustomer (some exDana) { offer_detail_id := some 1 }).1.body.map
            (fun o => o.business_user)) = some 3
        ∧ _get_profile_type dbOwnerCustomer exCarl = ProfileType.customer
        ∧ exCarl.id = 3)
    ∧ ((ordersPost dbOwnerCustomer (some exCarl) { offer_detail_id := some 1 }).1.status = 201
        ∧ ((ordersPost dbOwnerCustomer (some exCarl) { offer_detail_id := some 1 }).1.body.map
            (fun o => (o.customer_user, o.business_user))) = some (3, 3)) := by
  refine ⟨?_, ⟨by decide, by decide, by decide, by decide⟩, ⟨by decide, by decide⟩⟩
  intro db user p did detail offer hcust hp hdet hoff
  have hnc : ¬(_get_profile_type db user ≠ ProfileType.customer) := by simp [hcust]
  simp only [ordersPost, if_neg hnc, hp, hdet, hoff]
  exact ⟨by trivial, _create_order_from_detail db.nextOrderId user.id offer.userId detail,
    by trivial, rfl, rfl⟩

theorem orders_post_no_owner_check_witness :
    (_get_profile_type dbOwnerCustomer exDana = ProfileType.customer
      ∧ (OrderCreatePayload.mk (some 1)).offer_detail_id = some 1
      ∧ findDetail dbOwnerCustomer 1
          = some { id := 1, offerId := 1, title := "d", revisions := 1,
                   delivery_time_in_days := 1, price := 10, features := [],
                   offer_type := OfferType.basic }
      ∧ findOffer dbOwnerCustomer 1 = some { id := 1, userId := 3, title := "of" })
    ∧ ((ordersPost dbOwnerCustomer (some exDana) { offer_detail_id := some 1 }).1.status = 201
      ∧ ∃ o, (ordersPost dbOwnerCustomer (some exDana)
            { offer_detail_id := some 1 }).1.body = some o
          ∧ o.business_user = (Offer.mk 1 3 "of" "" 0).userId
          ∧ o.customer_user = exDana.id) :=
  ⟨⟨by decide, by decide, by decide, by decide⟩,
    orders_post_no_owner_check.1 dbOwnerCustomer exDana { offer_detail_id := some 1 } 1
      { id := 1, offerId := 1, title := "d", revisions := 1,
        delivery_time_in_days := 1, price := 10, features := [],
        offer_type := OfferType.basic }
      { id := 1, userId := 3, title := "of" }
      (by decide) (by decide) (by decide) (by decide)⟩

theorem _filter_offers_by_creator_sublist (l : List AnnOffer) (p : OffersListParams) :
    List.Sublist (_filter_offers_by_creator l p) l := by
  cases hc : p.creator_id with
  | none => simp only [_filter_offers_by_creator, hc]; exact List.Sublist.refl l
  | some c => simp only [_filter_offers_by_creator, hc]; exact List.filter_sublist l

theorem _filter_offers_by_min_price_sublist (l : List AnnOffer) (p : OffersListParams) :
    List.Sublist (_filter_offers_by_min_price l p) l := by
  cases hc : p.min_price with
  | none => simp only [_filter_offers_by_min_price, hc]; exact List.Sublist.refl l
  | some c => simp only [_filter_offers_by_min_price, hc]; exact List.filter_sublist l

theorem _filter_offers_by_max_delivery_sublist (l : List AnnOffer) (p : OffersListParams) :
    List.Sublist (_filter_offers_by_max_delivery l p) l := by
  cases hc : p.max_delivery_time with
  | none => simp only [_filter_offers_by_max_delivery, hc]; exact List.Sublist.refl l
  | some c => simp only [_filter_offers_by_max_delivery, hc]; exact List.filter_sublist l

theorem _filter_offers_by_search_sublist (l : List AnnOffer) (p : OffersListParams) :
    List.Sublist (_filter_offers_by_search l p) l := by
  cases hc : p.search with
  | none => simp only [_filter_offers_by_search, hc]; exact List.Sublist.refl l
  | some c => simp only [_filter_offers_by_search, hc]; exact List.filter_sublist l

theorem _apply_offers_filters_sublist (l : List AnnOffer) (p : OffersListParams) :
    List.Sublist (_apply_offers_filters l p) l := by
  unfold _apply_offers_filters
  exact ((_filter_offers_by_search_sublist _ _).trans
    ((_filter_offers_by_max_delivery_sublist _ _).trans
      ((_filter_offers_by_min_price_sublist _ _).trans
        (_filter_offers_by_creator_sublist _ _))))

theorem _annotate_good (db : DB) (l : List Offer) :
    ∀ a ∈ _annotate_offer_queryset db l, a.min_price = _offer_min_price db a.offer := by
  intro a ha
  unfold _annotate_offer_queryset at ha
  obtain ⟨o, ho, rfl⟩ := List.mem_map.mp ha
  rfl

theorem apply_ordering_min_price_eq (l : List AnnOffer) :
    _apply_ordering l (some "min_price") = List.insertionSort annMinPriceLe l := rfl

theorem paginate_sublist {α : Type} (l : List α) (page sz : Nat) (items : List α)
    (h : paginate l page sz = some items) : List.Sublist items l := by
  unfold paginate at h
  by_cases hc : page < 1 ∨ max 1 ((l.length + sz - 1) / sz) < page
  · rw [if_pos hc] at h
    exact Option.noConfusion h
  · rw [if_neg hc] at h
    obtain rfl : (l.drop ((page - 1) * sz)).take sz = items := Option.some.inj h
    exact (List.take_sublist sz (l.drop ((page - 1) * sz))).trans
      (List.drop_sublist ((page - 1) * sz) l)

/-- C7: a `GET /offers/` with `ordering=min_price` is answered 200 with the
requested page, or 404 when the requested page number is out of range
(`PageNumberPagination` raises `NotFound`); the returned results sequence is
sorted: for every adjacent pair, whenever both offers have a minimum detail
price, the later one's minimum is greater than or equal to the earlier
one's. -/
theorem offers_get_min_price_sorted (db : DB) (params : OffersListParams)
    (h : params.ordering = some "min_price") :
    ((offersGet db params).status = 200 ∨ (offersGet db params).status = 404)
    ∧ List.Chain' (fun a b : OfferListOut => ∀ pa pb : Int,
        a.min_price = some pa → b.min_price = some pb → pa ≤ pb)
      (offersGet db params).results := by
  have hcond : ¬((match params.ordering with
      | some s => !(offersOrderingAllowed s)
      | none => false) = true) := by
    rw [h]; decide
  cases hpg : paginate (_apply_ordering
      (_apply_offers_filters (_annotate_offer_queryset db (_offers_base_queryset db))
        params)
      params.ordering) params.page params.page_size with
  | none =>
      have hGet : offersGet db params = ⟨404, []⟩ := by
        unfold offersGet
        rw [if_neg hcond]
        simp only [hpg]
      rw [hGet]
      exact ⟨Or.inr rfl, List.chain'_nil⟩
  | some items =>
      have hGet : offersGet db params = ⟨200, items.map (serializeOfferList db)⟩ := by
        unfold offersGet
        rw [if_neg hcond]
        simp only [hpg]
      rw [hGet]
      refine ⟨Or.inl rfl, ?_⟩
      rw [h, apply_ordering_min_price_eq] at hpg
      have hsorted : (List.insertionSort annMinPriceLe
          (_apply_offers_filters (_annotate_offer_queryset db (_offers_base_queryset db))
            params)).Pairwise annMinPriceLe :=
        List.sorted_insertionSort annMinPriceLe _
      have hpage : List.Sublist items
          (List.insertionSort annMinPriceLe
            (_apply_offers_filters (_annotate_offer_queryset db (_offers_base_queryset db))
              params)) := paginate_sublist _ _ _ _ hpg
      have hsorted2 := List.Pairwise.sublist hpage hsorted
      have hgood : ∀ a ∈ items, a.min_price = _offer_min_price db a.offer := by
        intro a ha
        have h1 := hpage.subset ha
        have h2 := (List.perm_insertionSort annMinPriceLe _).subset h1
        have h3 := (_apply_offers_filters_sublist _ _).subset h2
        exact _annotate_good db _ a h3
      apply List.Pairwise.chain'
      rw [List.pairwise_map]
      refine hsorted2.imp_of_mem ?_
      intro a b ha hb hr pa pb hpa hpb
      simp only [serializeOfferList] at hpa hpb
      have hpa2 : a.min_price = some pa := by rw [hgood a ha]; exact hpa
      have hpb2 : b.min_price = some pb := by rw [hgood b hb]; exact hpb
      unfold annMinPriceLe at hr
      rw [hpa2, hpb2] at hr
      simpa [optIntLe] using hr

theorem offers_get_min_price_sorted_witness :
    ({ ordering := some "min_price" } : OffersListParams).ordering = some "min_price"
    ∧ (((offersGet dbTwoOffers { ordering := some "min_price" }).status = 200
        ∨ (offersGet dbTwoOffers { ordering := some "min_price" }).status = 404)
      ∧ List.Chain' (fun a b : OfferListOut => ∀ pa pb : Int,
          a.min_price = some pa → b.min_price = some pb → pa ≤ pb)
        (offersGet dbTwoOffers { ordering := some "min_price" }).results) :=
  ⟨rfl, offers_get_min_price_sorted dbTwoOffers { ordering := some "min_price" } rfl⟩

end Coderr
